import Mathlib

/-!
Shallow embedding of `infrastructure/infrastructure/utilities/cli.py`
(Python 2) into Lean 4.

Modelling choices:
* Python strings are `List Char`; Python lists of strings are `List (List Char)`.
* A command is either a raw string or an already-tokenized list (`Command`).
* The process launcher (`subprocess.check_output` / `check_call`) is an
  oracle passed in as a function: for each argv/env it either succeeds with
  captured stdout (exit status 0), exits non-zero (Python raises
  `CalledProcessError`), or fails at launch level with some other exception.
* Exceptions are values of `PyExc`; a function "raises" by returning
  `Except.error`.
* Observable side effects (diagnostics.printEnv, logger.debug,
  logger.exception, the launch itself, time.sleep, the retry notice) are
  recorded in an event trace, returned next to the result.
* Python %-formatting is modelled by `pyFormat`, faithfully enough for the
  format strings appearing in the source: flags are skipped, `%s` accepts
  any value, `%f` requires a number and raises `TypeError` on a string
  (this is what makes the terminal message of `runWithRetries`, which
  starts with the `% f` conversion, raise `TypeError` in the source).
-/

deriving instance DecidableEq for Except

/-- Python environment mapping (`os.environ` or an explicit `env` argument):
a list of key/value pairs of strings. Only carried around, never inspected. -/
abbrev Env := List (List Char × List Char)

/-- A command, as accepted by the functions of `cli.py`: either a single
string (Python `basestring`) or an already-tokenized list of strings. -/
inductive Command where
  | str (s : List Char)
  | tokens (ts : List (List Char))
deriving DecidableEq

/-- Python exceptions that can surface from the modelled code.
`commandFailed` is `infrastructure.utilities.exceptions.CommandFailedError`;
`typeError` and `valueError` arise from %-formatting; `otherExc` stands for
any other launch-level exception (e.g. `OSError`), identified by a tag so
that re-raising "unchanged" is expressible. -/
inductive PyExc where
  | commandFailed (msg : List Char)
  | typeError (msg : List Char)
  | valueError (msg : List Char)
  | otherExc (ident : List Char)
deriving DecidableEq

/-- Outcome of one launch of the child process by `check_output`/`check_call`:
exit status 0 with captured stdout, a non-zero exit status (Python raises
`CalledProcessError`), or a launch-level failure raising some other
exception. -/
inductive LaunchOutcome where
  | success (out : List Char)
  | exit (code : Nat)
  | failure (e : PyExc)
deriving DecidableEq

/-- Observable events emitted while running the modelled functions, in
order: a `diagnostics.printEnv(env, logger)` call, a `logger.debug` call,
the retry notice `logger.debug("Attempt %s to ...", ...)`, a
`time.sleep(delay)` call, the launch of the child process with the argv
actually passed to `check_output`/`check_call`, and a `logger.exception`
call with its message. -/
inductive Event where
  | printEnvCall (env : Env)
  | debugCall
  | retryNotice (attempt : Nat) (delay : Nat)
  | sleepCall (delay : Nat)
  | launchCall (argv : List (List Char)) (env : Env)
  | exceptionLog (msg : List Char)
deriving DecidableEq

/-- Python `str.isspace` on a single character (the characters stripped by
`str.strip()` with no arguments). -/
def pyIsSpace (c : Char) : Bool :=
  c = ' ' || c = '\t' || c = '\n' || c = '\r' || c = '\x0b' || c = '\x0c'

/-- Python `s.strip()`: remove leading and trailing whitespace. -/
def pyStrip (l : List Char) : List Char :=
  ((l.dropWhile pyIsSpace).reverse.dropWhile pyIsSpace).reverse

/-- Python `s.split(" ")`: split at every single occurrence of the space
character; consecutive spaces yield empty tokens, and the result is never
the empty list (`"".split(" ") == [""]`). -/
def pySplitSpace : List Char → List (List Char)
  | [] => [[]]
  | c :: rest =>
    if c = ' ' then [] :: pySplitSpace rest
    else
      match pySplitSpace rest with
      | [] => [[c]]
      | t :: ts => (c :: t) :: ts

/-- Python `" ".join(ts)`. -/
def pyJoinSpace : List (List Char) → List Char
  | [] => []
  | [t] => t
  | t :: ts => t ++ ' ' :: pyJoinSpace ts

/-- Python `str(i)` for an integer. -/
def intRepr (i : Int) : List Char :=
  if i < 0 then '-' :: Nat.toDigits 10 i.natAbs else Nat.toDigits 10 i.toNat

/-- A value passed as a %-format argument in the source: a string or an
integer. -/
inductive PyVal where
  | str (s : List Char)
  | int (i : Int)
deriving DecidableEq

/-- Message of the `TypeError` Python raises when a string is given to the
`%f` (float) conversion. -/
def floatErrMsg : List Char := "float argument required, not str".data

/-- Conversion flags of Python %-formatting (`"-+ #0"`). -/
def isFlag (c : Char) : Bool :=
  c = '-' || c = '+' || c = ' ' || c = '#' || c = '0'

/-- One conversion of Python %-formatting: `%s` accepts anything, `%f`
requires a number and raises `TypeError` on a string. Only the conversions
reachable from the format strings of `cli.py` matter. -/
def pyConvert (c : Char) (v : PyVal) : Except PyExc (List Char) :=
  if c = 's' then
    match v with
    | .str s => .ok s
    | .int i => .ok (intRepr i)
  else if c = 'f' then
    match v with
    | .int i => .ok (intRepr i ++ (".000000".data))
    | .str _ => .error (.typeError floatErrMsg)
  else .error (.valueError ("unsupported format character".data))

/-- Python `fmt % args`, processed left to right. The `Bool` is true while
scanning a `%` specifier (flags then one conversion character). Raises
`TypeError` when arguments are left over or missing, `ValueError` on a
format string ending inside a specifier, exactly as Python 2 does. -/
def pyFormatAux : Bool → List Char → List PyVal → Except PyExc (List Char)
  | false, [], args =>
    if args.isEmpty then .ok []
    else .error (.typeError ("not all arguments converted during string formatting".data))
  | false, c :: rest, args =>
    if c = '%' then pyFormatAux true rest args
    else (pyFormatAux false rest args).map (fun t => c :: t)
  | true, [], _ => .error (.valueError ("incomplete format".data))
  | true, c :: rest, args =>
    if isFlag c then pyFormatAux true rest args
    else if c = '%' then (pyFormatAux false rest args).map (fun t => '%' :: t)
    else
      match args with
      | [] => .error (.typeError ("not enough arguments for format string".data))
      | v :: args2 =>
        match pyConvert c v with
        | .error e => .error e
        | .ok s => (pyFormatAux false rest args2).map (fun t => s ++ t)

/-- Python `fmt % (args...)`. -/
def pyFormat (fmt : List Char) (args : List PyVal) : Except PyExc (List Char) :=
  pyFormatAux false fmt args

/-- Format string of the `CommandFailedError` messages of `executeCommand`
and `runWithOutput` (`cli.py` lines 63/65 and 128/130). -/
def failFmt : List Char := "Failed to execute command: %s".data

/-- Format string logged by `runWithOutput` when `check_call` raises a
non-`CalledProcessError` exception (`cli.py` line 138). -/
def checkCallFmt : List Char := "check_call failed for command=%s".data

/-- Format string of the terminal message of `runWithRetries` (`cli.py`
lines 99/101). Note it begins with `% f` — a space flag followed by the
float conversion — not with `%s`. -/
def retryFmt : List Char := "% failed after %s attempts".data

/-- Command normalization shared by `executeCommand` and `runWithOutput`
(`cli.py` lines 58-59 and 123-124): a string command is
`command.strip().split(" ")`; a list command is used as-is. -/
def normalizeCmd : Command → List (List Char)
  | .str s => pySplitSpace (pyStrip s)
  | .tokens ts => ts

/-- Text interpolated in the terminal message of `runWithRetries`
(`cli.py` lines 98-101): the command itself when it is a string, else
`" ".join(command)`. -/
def joinedText : Command → List Char
  | .str s => s
  | .tokens ts => pyJoinSpace ts

/-- Whether `small` occurs as a contiguous sublist of `big` (substring
containment on our `List Char` strings). -/
def containsSub (big small : List Char) : Bool :=
  (List.range (big.length + 1)).any (fun i => (big.drop i).take small.length = small)

/-- Embedding of `executeCommand(command, env, printEnv, logger)` (`cli.py`
lines 32-66). `launch` is the `check_output` oracle; `pe` is `printEnv`;
`hl` is `logger is not None`. Returns the raised exception or the stripped
captured output, next to the event trace. In the `except CalledProcessError`
branch the local `command` has already been rebound to the token list when
it was given as a string, so the message always embeds
`" ".join(<normalized command>)`. -/
def executeCommand (launch : List (List Char) → Env → LaunchOutcome)
    (command : Command) (env : Env) (pe hl : Bool) :
    Except PyExc (List Char) × List Event :=
  let ev0 : List Event := if pe then [Event.printEnvCall env] else []
  let ev1 : List Event := ev0 ++ (if hl then [Event.debugCall] else [])
  let argv := normalizeCmd command
  let ev2 : List Event := ev1 ++ [Event.launchCall argv env]
  let res : Except PyExc (List Char) :=
    match launch argv env with
    | .success out => .ok (pyStrip out)
    | .exit _ =>
      match pyFormat failFmt [PyVal.str (pyJoinSpace argv)] with
      | .ok m => .error (.commandFailed m)
      | .error e => .error e
    | .failure e => .error e
  (res, ev2)

/-- Embedding of `runWithOutput(command, env, printEnv, logger)` (`cli.py`
lines 106-140). Same shape as `executeCommand` but using `check_call`: a
non-zero exit raises `CommandFailedError`; any other exception from the
`try` block is logged via `logger.exception` (when a logger is present) and
re-raised unchanged. As in `executeCommand`, the local `command` is already
the token list in both `except` branches, so both messages embed
`" ".join(<normalized command>)`. -/
def runWithOutput (launch : List (List Char) → Env → LaunchOutcome)
    (command : Command) (env : Env) (pe hl : Bool) :
    Except PyExc Unit × List Event :=
  let ev0 : List Event := if pe then [Event.printEnvCall env] else []
  let ev1 : List Event := ev0 ++ (if hl then [Event.debugCall] else [])
  let argv := normalizeCmd command
  let ev2 : List Event := ev1 ++ [Event.launchCall argv env]
  match launch argv env with
  | .success _ => (.ok (), ev2)
  | .exit _ =>
    match pyFormat failFmt [PyVal.str (pyJoinSpace argv)] with
    | .ok m => (.error (.commandFailed m), ev2)
    | .error e => (.error e, ev2)
  | .failure e =>
    if hl then
      match pyFormat checkCallFmt [PyVal.str (pyJoinSpace argv)] with
      | .ok m => (.error e, ev2 ++ [Event.exceptionLog m])
      | .error e2 => (.error e2, ev2)
    else (.error e, ev2)

/-- Result of the `while attempts < retries` loop of `runWithRetries`:
the loop `return`ed after a successful attempt, exhausted its iterations
(falling through to the terminal raise), or let a non-`CommandFailedError`
exception propagate. -/
inductive LoopResult where
  | success
  | exhausted
  | propagated (e : PyExc)
deriving DecidableEq

/-- The retry loop of `runWithRetries` (`cli.py` lines 86-96). `k` is the
number of attempts already made (so the oracle index of the next attempt,
and `k+1` is the `attempts` value logged in the retry notice); `remaining`
is how many loop iterations are left. Each failed attempt logs the retry
notice (when a logger is present) and sleeps for `delay` seconds —
including the last one. Only `CommandFailedError` is caught; any other
exception propagates at once. `runWithOutput` is called without `env`, so
the ambient `os.environ` (here `osEnviron`) is used. -/
def runAttempts (launch : Nat → List (List Char) → Env → LaunchOutcome)
    (osEnviron : Env) (command : Command) (delay : Nat) (pe hl : Bool) :
    Nat → Nat → LoopResult × List Event
  | _, 0 => (.exhausted, [])
  | k, remaining + 1 =>
    let step := runWithOutput (launch k) command osEnviron pe hl
    match step.1 with
    | .ok _ => (.success, step.2)
    | .error (.commandFailed _) =>
      let ev2 := step.2 ++ (if hl then [Event.retryNotice (k + 1) delay] else [])
        ++ [Event.sleepCall delay]
      let rest := runAttempts launch osEnviron command delay pe hl (k + 1) remaining
      (rest.1, ev2 ++ rest.2)
    | .error e => (.propagated e, step.2)

/-- Embedding of `runWithRetries(command, retries, delay, printEnv, logger)`
(`cli.py` lines 69-103). `retries` is a Python int, so it may be zero or
negative, in which case the loop body never runs. After exhausting the
loop, the terminal message is built with
`"% failed after %s attempts" % (<text>, retries)`; since the format string
starts with the `% f` float conversion and `<text>` is a string, that
expression raises `TypeError` in Python 2, so the `CommandFailedError`
raise below it is never reached. -/
def runWithRetries (launch : Nat → List (List Char) → Env → LaunchOutcome)
    (osEnviron : Env) (command : Command) (retries : Int) (delay : Nat)
    (pe hl : Bool) : Except PyExc Unit × List Event :=
  let loop := runAttempts launch osEnviron command delay pe hl 0 retries.toNat
  match loop.1 with
  | .success => (.ok (), loop.2)
  | .propagated e => (.error e, loop.2)
  | .exhausted =>
    match pyFormat retryFmt [PyVal.str (joinedText command), PyVal.int retries] with
    | .ok m => (.error (.commandFailed m), loop.2)
    | .error e => (.error e, loop.2)

/-- Recognizes the launch event (one per `check_output`/`check_call` call). -/
def isLaunchEvent : Event → Bool
  | .launchCall _ _ => true
  | _ => false

/-- Recognizes a `time.sleep` event. -/
def isSleepEvent : Event → Bool
  | .sleepCall _ => true
  | _ => false

/-- Recognizes a `diagnostics.printEnv` event. -/
def isPrintEnvEvent : Event → Bool
  | .printEnvCall _ => true
  | _ => false

/-- Recognizes a retry-notice `logger.debug` event. -/
def isRetryNoticeEvent : Event → Bool
  | .retryNotice _ _ => true
  | _ => false

/-- Number of child-process launches recorded in a trace. -/
def countLaunches (evs : List Event) : Nat := (evs.filter isLaunchEvent).length

/-- Number of `time.sleep` calls recorded in a trace. -/
def countSleeps (evs : List Event) : Nat := (evs.filter isSleepEvent).length

/-- Number of retry notices recorded in a trace. -/
def countRetryNotices (evs : List Event) : Nat :=
  (evs.filter isRetryNoticeEvent).length

/-- Literal prefix of the `CommandFailedError` messages. -/
def failMsgHead : List Char := "Failed to execute command: ".data

/-- Literal prefix of the `logger.exception` message of `runWithOutput`. -/
def checkCallHead : List Char := "check_call failed for command=".data

/-- Events common to every run of `executeCommand`/`runWithOutput`: the
optional diagnostics call, the optional debug log, then the launch. -/
def traceBase (command : Command) (env : Env) (pe hl : Bool) : List Event :=
  (if pe then [Event.printEnvCall env] else [])
    ++ (if hl then [Event.debugCall] else [])
    ++ [Event.launchCall (normalizeCmd command) env]

/-- The command text that ends up embedded in the failure messages after
normalization: the trimmed string when the command was a string (since
splitting on single spaces and joining with single spaces are mutually
inverse), or the tokens joined by spaces when it was a sequence. -/
def trimmedText : Command → List Char
  | .str s => pyStrip s
  | .tokens ts => pyJoinSpace ts

theorem pyFormat_failMsg (s : List Char) :
    pyFormat failFmt [PyVal.str s] = .ok (failMsgHead ++ s) := by
  have h : pyFormat failFmt [PyVal.str s] = .ok (failMsgHead ++ (s ++ [])) := rfl
  simpa using h

theorem pyFormat_checkCallMsg (s : List Char) :
    pyFormat checkCallFmt [PyVal.str s] = .ok (checkCallHead ++ s) := by
  have h : pyFormat checkCallFmt [PyVal.str s] = .ok (checkCallHead ++ (s ++ [])) := rfl
  simpa using h

theorem pyFormat_retryMsg (s : List Char) (n : Int) :
    pyFormat retryFmt [PyVal.str s, PyVal.int n] = .error (.typeError floatErrMsg) := rfl

theorem pySplitSpace_ne_nil (l : List Char) : pySplitSpace l ≠ [] := by
  cases l with
  | nil => simp [pySplitSpace]
  | cons c rest =>
    simp only [pySplitSpace]
    split
    · simp
    · split <;> simp

theorem pyJoinSpace_cons (t : List Char) (u : List (List Char)) (hu : u ≠ []) :
    pyJoinSpace (t :: u) = t ++ ' ' :: pyJoinSpace u := by
  cases u with
  | nil => exact absurd rfl hu
  | cons v vs => rfl

theorem pyJoinSpace_pySplitSpace (l : List Char) :
    pyJoinSpace (pySplitSpace l) = l := by
  induction l with
  | nil => rfl
  | cons c rest ih =>
    by_cases hc : c = ' '
    · subst hc
      have hstep : pySplitSpace (' ' :: rest) = [] :: pySplitSpace rest := rfl
      rw [hstep, pyJoinSpace_cons [] (pySplitSpace rest) (pySplitSpace_ne_nil rest), ih]
      rfl
    · simp only [pySplitSpace, if_neg hc]
      rcases hsplit : pySplitSpace rest with _ | ⟨t, ts⟩
      · exact absurd hsplit (pySplitSpace_ne_nil rest)
      · rw [hsplit] at ih
        cases ts with
        | nil => simpa [pyJoinSpace] using ih
        | cons u us =>
          rw [pyJoinSpace_cons (c :: t) (u :: us) (List.cons_ne_nil u us)]
          rw [pyJoinSpace_cons t (u :: us) (List.cons_ne_nil u us)] at ih
          simp [← ih]

theorem containsSub_tail (a b : List Char) : containsSub (a ++ b) b = true := by
  simp only [containsSub, List.any_eq_true]
  refine ⟨a.length, ?_, ?_⟩
  · simp [List.mem_range]
    omega
  · simp [List.drop_left]

theorem executeCommand_snd (launch : List (List Char) → Env → LaunchOutcome)
    (command : Command) (env : Env) (pe hl : Bool) :
    (executeCommand launch command env pe hl).2 = traceBase command env pe hl := rfl

theorem executeCommand_success (launch : List (List Char) → Env → LaunchOutcome)
    (command : Command) (env : Env) (pe hl : Bool) (out : List Char)
    (h : launch (normalizeCmd command) env = LaunchOutcome.success out) :
    (executeCommand launch command env pe hl).1 = .ok (pyStrip out) := by
  simp [executeCommand, h]

theorem executeCommand_exit (launch : List (List Char) → Env → LaunchOutcome)
    (command : Command) (env : Env) (pe hl : Bool) (c : Nat)
    (h : launch (normalizeCmd command) env = LaunchOutcome.exit c) :
    (executeCommand launch command env pe hl).1
      = .error (.commandFailed (failMsgHead ++ pyJoinSpace (normalizeCmd command))) := by
  simp [executeCommand, h, pyFormat_failMsg]

theorem runWithOutput_success (launch : List (List Char) → Env → LaunchOutcome)
    (command : Command) (env : Env) (pe hl : Bool) (out : List Char)
    (h : launch (normalizeCmd command) env = LaunchOutcome.success out) :
    runWithOutput launch command env pe hl = (.ok (), traceBase command env pe hl) := by
  simp [runWithOutput, h, traceBase]

theorem runWithOutput_exit (launch : List (List Char) → Env → LaunchOutcome)
    (command : Command) (env : Env) (pe hl : Bool) (c : Nat)
    (h : launch (normalizeCmd command) env = LaunchOutcome.exit c) :
    runWithOutput launch command env pe hl
      = (.error (.commandFailed (failMsgHead ++ pyJoinSpace (normalizeCmd command))),
         traceBase command env pe hl) := by
  simp [runWithOutput, h, pyFormat_failMsg, traceBase]

theorem runWithOutput_failure (launch : List (List Char) → Env → LaunchOutcome)
    (command : Command) (env : Env) (pe hl : Bool) (e : PyExc)
    (h : launch (normalizeCmd command) env = LaunchOutcome.failure e) :
    runWithOutput launch command env pe hl
      = (.error e,
         traceBase command env pe hl
           ++ (if hl then
                 [Event.exceptionLog (checkCallHead ++ pyJoinSpace (normalizeCmd command))]
               else [])) := by
  cases hl <;> simp [runWithOutput, h, pyFormat_checkCallMsg, traceBase]

theorem countLaunches_append (a b : List Event) :
    countLaunches (a ++ b) = countLaunches a + countLaunches b := by
  simp [countLaunches, List.filter_append]

theorem countSleeps_append (a b : List Event) :
    countSleeps (a ++ b) = countSleeps a + countSleeps b := by
  simp [countSleeps, List.filter_append]

theorem countRetryNotices_append (a b : List Event) :
    countRetryNotices (a ++ b) = countRetryNotices a + countRetryNotices b := by
  simp [countRetryNotices, List.filter_append]

theorem countLaunches_traceBase (command : Command) (env : Env) (pe hl : Bool) :
    countLaunches (traceBase command env pe hl) = 1 := by
  cases pe <;> cases hl <;> simp [traceBase, countLaunches, isLaunchEvent]

theorem countSleeps_traceBase (command : Command) (env : Env) (pe hl : Bool) :
    countSleeps (traceBase command env pe hl) = 0 := by
  cases pe <;> cases hl <;> simp [traceBase, countSleeps, isSleepEvent]

theorem countRetryNotices_traceBase (command : Command) (env : Env) (pe hl : Bool) :
    countRetryNotices (traceBase command env pe hl) = 0 := by
  cases pe <;> cases hl <;> simp [traceBase, countRetryNotices, isRetryNoticeEvent]

theorem printEnvFilter_traceBase (command : Command) (env : Env) (pe hl : Bool) :
    (traceBase command env pe hl).filter isPrintEnvEvent
      = if pe then [Event.printEnvCall env] else [] := by
  cases pe <;> cases hl <;> simp [traceBase, isPrintEnvEvent]

theorem launchFilter_traceBase (command : Command) (env : Env) (pe hl : Bool) :
    (traceBase command env pe hl).filter isLaunchEvent
      = [Event.launchCall (normalizeCmd command) env] := by
  cases pe <;> cases hl <;> simp [traceBase, isLaunchEvent]

theorem runWithOutput_launchFilter (launch : List (List Char) → Env → LaunchOutcome)
    (command : Command) (env : Env) (pe hl : Bool) :
    ((runWithOutput launch command env pe hl).2.filter isLaunchEvent)
      = [Event.launchCall (normalizeCmd command) env] := by
  rcases hLaunch : launch (normalizeCmd command) env with out | c | e
  · rw [runWithOutput_success launch command env pe hl out hLaunch]
    exact launchFilter_traceBase command env pe hl
  · rw [runWithOutput_exit launch command env pe hl c hLaunch]
    exact launchFilter_traceBase command env pe hl
  · rw [runWithOutput_failure launch command env pe hl e hLaunch]
    cases hl <;>
      simp [List.filter_append, launchFilter_traceBase command env pe, isLaunchEvent]

theorem runWithOutput_printEnvFilter (launch : List (List Char) → Env → LaunchOutcome)
    (command : Command) (env : Env) (pe hl : Bool) :
    ((runWithOutput launch command env pe hl).2.filter isPrintEnvEvent)
      = if pe then [Event.printEnvCall env] else [] := by
  rcases hLaunch : launch (normalizeCmd command) env with out | c | e
  · rw [runWithOutput_success launch command env pe hl out hLaunch]
    exact printEnvFilter_traceBase command env pe hl
  · rw [runWithOutput_exit launch command env pe hl c hLaunch]
    exact printEnvFilter_traceBase command env pe hl
  · rw [runWithOutput_failure launch command env pe hl e hLaunch]
    cases hl <;>
      simp [List.filter_append, printEnvFilter_traceBase command env pe, isPrintEnvEvent]

/-- C1 (code bug): for a command whose every launch exits with a non-zero
status, `runWithRetries(command, retries=3, delay=0)` does invoke
`runWithOutput` exactly 3 times and never returns normally, but the
terminal raise is a `TypeError` coming from the malformed format
expression `"% failed after %s attempts" % (command, retries)` — its
leading `% f` (space-flagged float) conversion is applied to the command
string — so the documented `CommandFailedError` embedding the joined
command and the retry count is never constructed. -/
theorem runWithRetries_exhausted_raises_typeError :
    countLaunches (runWithRetries (fun _ _ _ => LaunchOutcome.exit 1) []
        (Command.str ("make build".data)) 3 0 false false).2 = 3
    ∧ (runWithRetries (fun _ _ _ => LaunchOutcome.exit 1) []
        (Command.str ("make build".data)) 3 0 false false).1
      = .error (.typeError floatErrMsg) := by decide

/-- C2 counterexample: the command text "echo  hello  " is NOT tokenized to
["echo", "hello"]; `executeCommand` passes ["echo", "", "hello"] to the
launcher, because `command.strip().split(" ")` splits at every single space
rather than on runs of whitespace. -/
theorem tokenize_whitespace_runs_cex :
    (executeCommand (fun _ _ => LaunchOutcome.success []) (Command.str ("echo  hello  ".data))
        [] false false).2
      = [Event.launchCall ["echo".data, [], "hello".data] []]
    ∧ ["echo".data, ([] : List Char), "hello".data] ≠ ["echo".data, "hello".data] := by
  decide

/-- C2 (amended): for every command given as a single string, normalization
first trims leading/trailing whitespace and then splits at every single
space character (a run of spaces yields empty tokens, and only the space
character separates, not other whitespace), and this token list is what
`executeCommand` and `runWithOutput` pass to the process launcher; the
command text "echo  hello  " is tokenized to ["echo", "", "hello"]. -/
theorem tokenize_trim_then_single_space_split
    (launch : List (List Char) → Env → LaunchOutcome) (s : List Char)
    (env : Env) (pe hl : Bool) :
    ((executeCommand launch (Command.str s) env pe hl).2.filter isLaunchEvent
        = [Event.launchCall (pySplitSpace (pyStrip s)) env])
    ∧ ((runWithOutput launch (Command.str s) env pe hl).2.filter isLaunchEvent
        = [Event.launchCall (pySplitSpace (pyStrip s)) env])
    ∧ pySplitSpace (pyStrip ("echo  hello  ".data)) = ["echo".data, [], "hello".data] := by
  refine ⟨?_, ?_, by decide⟩
  · rw [executeCommand_snd]
    exact launchFilter_traceBase (Command.str s) env pe hl
  · exact runWithOutput_launchFilter launch (Command.str s) env pe hl

/-- C3 counterexample: for the string command "run  it " (trailing space)
exiting non-zero, the `CommandFailed` message embeds the normalized text
"run  it", and the literal original command text "run  it " does not occur
in the message. -/
theorem failure_message_literal_cex :
    (executeCommand (fun _ _ => LaunchOutcome.exit 2) (Command.str ("run  it ".data))
        [] false false).1
      = .error (.commandFailed ("Failed to execute command: run  it".data))
    ∧ containsSub ("Failed to execute command: run  it".data) ("run  it ".data) = false := by
  decide

/-- C3 (amended): for every command whose child process exits with a
non-zero status, `executeCommand` and `runWithOutput` raise a CommandFailed
error whose message contains the normalized command text — the original
string with leading/trailing whitespace stripped if the command was given
as a string (interior characters are unchanged because single-space
splitting and single-space joining are mutually inverse), or the tokens
joined by single spaces if it was given as a sequence. -/
theorem failure_message_contains_trimmed_command
    (launch : List (List Char) → Env → LaunchOutcome) (command : Command)
    (env : Env) (pe hl : Bool) (c : Nat)
    (h : launch (normalizeCmd command) env = LaunchOutcome.exit c) :
    (∃ m, (executeCommand launch command env pe hl).1 = .error (.commandFailed m)
        ∧ containsSub m (trimmedText command) = true)
    ∧ (∃ m, (runWithOutput launch command env pe hl).1 = .error (.commandFailed m)
        ∧ containsSub m (trimmedText command) = true) := by
  have hjoin : pyJoinSpace (normalizeCmd command) = trimmedText command := by
    cases command with
    | str s => simp [normalizeCmd, trimmedText, pyJoinSpace_pySplitSpace]
    | tokens ts => rfl
  constructor
  · refine ⟨failMsgHead ++ pyJoinSpace (normalizeCmd command), ?_, ?_⟩
    · exact executeCommand_exit launch command env pe hl c h
    · rw [hjoin]
      exact containsSub_tail failMsgHead (trimmedText command)
  · refine ⟨failMsgHead ++ pyJoinSpace (normalizeCmd command), ?_, ?_⟩
    · rw [runWithOutput_exit launch command env pe hl c h]
    · rw [hjoin]
      exact containsSub_tail failMsgHead (trimmedText command)

/-- Witness for the amended C3 at the concrete command " git  push "
exiting with status 5. -/
theorem failure_message_contains_trimmed_command_witness :
    (fun (_ : List (List Char)) (_ : Env) => LaunchOutcome.exit 5)
        (normalizeCmd (Command.str (" git  push ".data))) [] = LaunchOutcome.exit 5
    ∧ ((∃ m, (executeCommand (fun _ _ => LaunchOutcome.exit 5)
            (Command.str (" git  push ".data)) [] false false).1
          = .error (.commandFailed m)
        ∧ containsSub m (trimmedText (Command.str (" git  push ".data))) = true)
      ∧ (∃ m, (runWithOutput (fun _ _ => LaunchOutcome.exit 5)
            (Command.str (" git  push ".data)) [] false false).1
          = .error (.commandFailed m)
        ∧ containsSub m (trimmedText (Command.str (" git  push ".data))) = true)) :=
  ⟨rfl, failure_message_contains_trimmed_command (fun _ _ => LaunchOutcome.exit 5)
    (Command.str (" git  push ".data)) [] false false 5 rfl⟩

/-- C7: for every command whose child process exits with status zero,
`executeCommand` returns the captured standard output of the child with
leading and trailing whitespace stripped. -/
theorem executeCommand_returns_stripped_output
    (launch : List (List Char) → Env → LaunchOutcome) (command : Command)
    (env : Env) (pe hl : Bool) (out : List Char)
    (h : launch (normalizeCmd command) env = LaunchOutcome.success out) :
    (executeCommand launch command env pe hl).1 = .ok (pyStrip out) :=
  executeCommand_success launch command env pe hl out h

/-- Witness for C7: the spec example — a launch capturing "  hello \n"
under the command "echo  hello  " returns exactly "hello". -/
theorem executeCommand_returns_stripped_output_witness :
    (fun (_ : List (List Char)) (_ : Env) => LaunchOutcome.success ("  hello \n".data))
        (normalizeCmd (Command.str ("echo  hello  ".data))) []
      = LaunchOutcome.success ("  hello \n".data)
    ∧ (executeCommand (fun _ _ => LaunchOutcome.success ("  hello \n".data))
        (Command.str ("echo  hello  ".data)) [] false false).1
      = .ok (pyStrip ("  hello \n".data))
    ∧ pyStrip ("  hello \n".data) = "hello".data :=
  ⟨rfl,
   executeCommand_returns_stripped_output (fun _ _ => LaunchOutcome.success ("  hello \n".data))
     (Command.str ("echo  hello  ".data)) [] false false ("  hello \n".data) rfl,
   by decide⟩

/-- C8: for every command given as an already-tokenized sequence, both
`executeCommand` and `runWithOutput` pass that sequence to the process
launcher unmodified: the one launch of each invocation receives exactly
the given token list. -/
theorem tokenized_sequence_passed_unmodified
    (launch : List (List Char) → Env → LaunchOutcome) (ts : List (List Char))
    (env : Env) (pe hl : Bool) :
    ((executeCommand launch (Command.tokens ts) env pe hl).2.filter isLaunchEvent
        = [Event.launchCall ts env])
    ∧ ((runWithOutput launch (Command.tokens ts) env pe hl).2.filter isLaunchEvent
        = [Event.launchCall ts env]) := by
  constructor
  · rw [executeCommand_snd]
    exact launchFilter_traceBase (Command.tokens ts) env pe hl
  · exact runWithOutput_launchFilter launch (Command.tokens ts) env pe hl

/-- C9: every invocation of `executeCommand` or `runWithOutput` with
printEnv=True makes exactly one diagnostics print-environment call, and it
receives the effective environment mapping (the one the function was given);
with printEnv=False no diagnostics call is made. -/
theorem printEnv_diagnostics_exactly_once
    (launch : List (List Char) → Env → LaunchOutcome) (command : Command)
    (env : Env) (pe hl : Bool) :
    ((executeCommand launch command env pe hl).2.filter isPrintEnvEvent
        = if pe then [Event.printEnvCall env] else [])
    ∧ ((runWithOutput launch command env pe hl).2.filter isPrintEnvEvent
        = if pe then [Event.printEnvCall env] else []) := by
  constructor
  · rw [executeCommand_snd]
    exact printEnvFilter_traceBase command env pe hl
  · exact runWithOutput_printEnvFilter launch command env pe hl

theorem countLaunches_logEvent (m : List Char) : countLaunches [Event.exceptionLog m] = 0 := rfl

theorem countSleeps_logEvent (m : List Char) : countSleeps [Event.exceptionLog m] = 0 := rfl

theorem countRetryNotices_logEvent (m : List Char) :
    countRetryNotices [Event.exceptionLog m] = 0 := rfl

theorem countLaunches_sleepEvent (d : Nat) : countLaunches [Event.sleepCall d] = 0 := rfl

theorem countSleeps_sleepEvent (d : Nat) : countSleeps [Event.sleepCall d] = 1 := rfl

theorem countRetryNotices_sleepEvent (d : Nat) :
    countRetryNotices [Event.sleepCall d] = 0 := rfl

theorem countLaunches_noticeEvent (a d : Nat) :
    countLaunches [Event.retryNotice a d] = 0 := rfl

theorem countSleeps_noticeEvent (a d : Nat) : countSleeps [Event.retryNotice a d] = 0 := rfl

theorem countRetryNotices_noticeEvent (a d : Nat) :
    countRetryNotices [Event.retryNotice a d] = 1 := rfl

theorem countLaunches_consSleep (d : Nat) (l : List Event) :
    countLaunches (Event.sleepCall d :: l) = countLaunches l := by
  simp [countLaunches, List.filter_cons, isLaunchEvent]

theorem countLaunches_consNotice (a d : Nat) (l : List Event) :
    countLaunches (Event.retryNotice a d :: l) = countLaunches l := by
  simp [countLaunches, List.filter_cons, isLaunchEvent]

theorem countSleeps_consSleep (d : Nat) (l : List Event) :
    countSleeps (Event.sleepCall d :: l) = countSleeps l + 1 := by
  simp [countSleeps, List.filter_cons, isSleepEvent]

theorem countSleeps_consNotice (a d : Nat) (l : List Event) :
    countSleeps (Event.retryNotice a d :: l) = countSleeps l := by
  simp [countSleeps, List.filter_cons, isSleepEvent]

theorem countRetryNotices_consSleep (d : Nat) (l : List Event) :
    countRetryNotices (Event.sleepCall d :: l) = countRetryNotices l := by
  simp [countRetryNotices, List.filter_cons, isRetryNoticeEvent]

theorem countRetryNotices_consNotice (a d : Nat) (l : List Event) :
    countRetryNotices (Event.retryNotice a d :: l) = countRetryNotices l + 1 := by
  simp [countRetryNotices, List.filter_cons, isRetryNoticeEvent]

/-- C5: every failure in `runWithOutput` that is not a non-zero exit of the
child is re-raised unchanged — the result is exactly the original error,
never a CommandFailed wrapper — and, when a logger is present, the
execution-failure message (the `check_call failed for command=...` text) is
logged via `logger.exception` first. -/
theorem runWithOutput_launch_error_reraised_unchanged
    (launch : List (List Char) → Env → LaunchOutcome) (command : Command)
    (env : Env) (pe hl : Bool) (e : PyExc)
    (h : launch (normalizeCmd command) env = LaunchOutcome.failure e) :
    (runWithOutput launch command env pe hl).1 = .error e
    ∧ (hl = true →
        Event.exceptionLog (checkCallHead ++ pyJoinSpace (normalizeCmd command))
          ∈ (runWithOutput launch command env pe hl).2) := by
  rw [runWithOutput_failure launch command env pe hl e h]
  refine ⟨rfl, fun hhl => ?_⟩
  subst hhl
  simp

/-- Witness for C5: a launch-level OSError under the tokenized command
["rm"] with a logger present is logged and re-raised as itself. -/
theorem runWithOutput_launch_error_reraised_unchanged_witness :
    (fun (_ : List (List Char)) (_ : Env) =>
        LaunchOutcome.failure (PyExc.otherExc ("OSError".data)))
        (normalizeCmd (Command.tokens ["rm".data])) []
      = LaunchOutcome.failure (PyExc.otherExc ("OSError".data))
    ∧ ((runWithOutput (fun _ _ => LaunchOutcome.failure (PyExc.otherExc ("OSError".data)))
          (Command.tokens ["rm".data]) [] false true).1
        = .error (PyExc.otherExc ("OSError".data))
      ∧ (true = true →
          Event.exceptionLog (checkCallHead ++ pyJoinSpace (normalizeCmd (Command.tokens ["rm".data])))
            ∈ (runWithOutput (fun _ _ => LaunchOutcome.failure (PyExc.otherExc ("OSError".data)))
                (Command.tokens ["rm".data]) [] false true).2)) :=
  ⟨rfl,
   runWithOutput_launch_error_reraised_unchanged
     (fun _ _ => LaunchOutcome.failure (PyExc.otherExc ("OSError".data)))
     (Command.tokens ["rm".data]) [] false true (PyExc.otherExc ("OSError".data)) rfl⟩

/-- C4: for every command whose first two launches exit non-zero and whose
third launch exits zero, `runWithRetries(command, retries=3, delay)`
invokes `runWithOutput` exactly 3 times and returns normally with no
error; after the successful attempt it returns immediately — exactly the
two sleeps of the two failures occur, none after the success. -/
theorem runWithRetries_fail_fail_succeed
    (launch : Nat → List (List Char) → Env → LaunchOutcome) (osEnviron : Env)
    (command : Command) (delay : Nat) (pe hl : Bool) (c0 c1 : Nat) (out : List Char)
    (h0 : launch 0 (normalizeCmd command) osEnviron = LaunchOutcome.exit c0)
    (h1 : launch 1 (normalizeCmd command) osEnviron = LaunchOutcome.exit c1)
    (h2 : launch 2 (normalizeCmd command) osEnviron = LaunchOutcome.success out) :
    (runWithRetries launch osEnviron command 3 delay pe hl).1 = .ok ()
    ∧ countLaunches (runWithRetries launch osEnviron command 3 delay pe hl).2 = 3
    ∧ countSleeps (runWithRetries launch osEnviron command 3 delay pe hl).2 = 2 := by
  have hs0 := runWithOutput_exit (launch 0) command osEnviron pe hl c0 h0
  have hs1 := runWithOutput_exit (launch 1) command osEnviron pe hl c1 h1
  have hs2 := runWithOutput_success (launch 2) command osEnviron pe hl out h2
  have ha0 : runAttempts launch osEnviron command delay pe hl 0 3
      = (LoopResult.success,
         (traceBase command osEnviron pe hl ++ ((if hl then [Event.retryNotice 1 delay] else [])
            ++ ([Event.sleepCall delay]
              ++ (traceBase command osEnviron pe hl ++ ((if hl then [Event.retryNotice 2 delay] else [])
            ++ ([Event.sleepCall delay] ++ traceBase command osEnviron pe hl))))))) := by
    simp only [runAttempts]
    rw [hs0, hs1, hs2]
    simp
  have hT : (3 : Int).toNat = 3 := rfl
  have hpair : runWithRetries launch osEnviron command 3 delay pe hl
      = (Except.ok (),
         (traceBase command osEnviron pe hl ++ ((if hl then [Event.retryNotice 1 delay] else [])
            ++ ([Event.sleepCall delay]
              ++ (traceBase command osEnviron pe hl ++ ((if hl then [Event.retryNotice 2 delay] else [])
            ++ ([Event.sleepCall delay] ++ traceBase command osEnviron pe hl))))))) := by
    simp only [runWithRetries, hT]
    rw [ha0]
  refine ⟨by rw [hpair], ?_, ?_⟩ <;> rw [hpair] <;> cases hl <;>
    simp [countLaunches_append, countLaunches_traceBase, countLaunches_sleepEvent,
      countLaunches_noticeEvent, countLaunches_consSleep, countLaunches_consNotice,
      countSleeps_append, countSleeps_traceBase, countSleeps_sleepEvent,
      countSleeps_noticeEvent, countSleeps_consSleep, countSleeps_consNotice]

/-- Witness for C4: a concrete oracle failing at attempts 1-2 (exit 1) and
succeeding at attempt 3, with retries=3 and delay=0. -/
theorem runWithRetries_fail_fail_succeed_witness :
    (fun (k : Nat) (_ : List (List Char)) (_ : Env) =>
        if k ≤ 1 then LaunchOutcome.exit 1 else LaunchOutcome.success []) 0
        (normalizeCmd (Command.tokens ["ls".data])) [] = LaunchOutcome.exit 1
    ∧ (fun (k : Nat) (_ : List (List Char)) (_ : Env) =>
        if k ≤ 1 then LaunchOutcome.exit 1 else LaunchOutcome.success []) 1
        (normalizeCmd (Command.tokens ["ls".data])) [] = LaunchOutcome.exit 1
    ∧ (fun (k : Nat) (_ : List (List Char)) (_ : Env) =>
        if k ≤ 1 then LaunchOutcome.exit 1 else LaunchOutcome.success []) 2
        (normalizeCmd (Command.tokens ["ls".data])) [] = LaunchOutcome.success []
    ∧ ((runWithRetries (fun k _ _ => if k ≤ 1 then LaunchOutcome.exit 1 else LaunchOutcome.success [])
          [] (Command.tokens ["ls".data]) 3 0 false false).1 = .ok ()
      ∧ countLaunches (runWithRetries (fun k _ _ => if k ≤ 1 then LaunchOutcome.exit 1 else LaunchOutcome.success [])
          [] (Command.tokens ["ls".data]) 3 0 false false).2 = 3
      ∧ countSleeps (runWithRetries (fun k _ _ => if k ≤ 1 then LaunchOutcome.exit 1 else LaunchOutcome.success [])
          [] (Command.tokens ["ls".data]) 3 0 false false).2 = 2) :=
  ⟨rfl, rfl, rfl,
   runWithRetries_fail_fail_succeed
     (fun k _ _ => if k ≤ 1 then LaunchOutcome.exit 1 else LaunchOutcome.success [])
     [] (Command.tokens ["ls".data]) 0 false false 1 1 [] rfl rfl rfl⟩

/-- C6: `runWithRetries` catches only CommandFailed errors from its
attempts: an attempt raising any other (launch-level) error makes that
error propagate out immediately and unchanged — one launch, no
retry-notice logging and no sleep for that failure. Conjoined: a concrete
run showing the same inside the retry loop (attempt 1 exits non-zero,
attempt 2 raises OSError, retries=5): the loop stops after 2 launches with
only the single notice and single sleep of the first failure, and the
OSError propagates. -/
theorem runWithRetries_catches_only_commandFailed
    (launch : Nat → List (List Char) → Env → LaunchOutcome) (osEnviron : Env)
    (command : Command) (retries : Int) (delay : Nat) (pe hl : Bool) (e : PyExc)
    (hr : 1 ≤ retries)
    (h0 : launch 0 (normalizeCmd command) osEnviron = LaunchOutcome.failure e)
    (hne : ∀ m, e ≠ PyExc.commandFailed m) :
    ((runWithRetries launch osEnviron command retries delay pe hl).1 = .error e
      ∧ countLaunches (runWithRetries launch osEnviron command retries delay pe hl).2 = 1
      ∧ countSleeps (runWithRetries launch osEnviron command retries delay pe hl).2 = 0
      ∧ countRetryNotices (runWithRetries launch osEnviron command retries delay pe hl).2 = 0)
    ∧ ((runWithRetries (fun k _ _ => if k = 0 then LaunchOutcome.exit 1
            else LaunchOutcome.failure (PyExc.otherExc ("OSError".data)))
          [] (Command.tokens ["x".data]) 5 7 false true).1
        = .error (PyExc.otherExc ("OSError".data))
      ∧ countLaunches (runWithRetries (fun k _ _ => if k = 0 then LaunchOutcome.exit 1
            else LaunchOutcome.failure (PyExc.otherExc ("OSError".data)))
          [] (Command.tokens ["x".data]) 5 7 false true).2 = 2
      ∧ countSleeps (runWithRetries (fun k _ _ => if k = 0 then LaunchOutcome.exit 1
            else LaunchOutcome.failure (PyExc.otherExc ("OSError".data)))
          [] (Command.tokens ["x".data]) 5 7 false true).2 = 1
      ∧ countRetryNotices (runWithRetries (fun k _ _ => if k = 0 then LaunchOutcome.exit 1
            else LaunchOutcome.failure (PyExc.otherExc ("OSError".data)))
          [] (Command.tokens ["x".data]) 5 7 false true).2 = 1) := by
  obtain ⟨n, hn⟩ : ∃ n, retries.toNat = n + 1 := ⟨retries.toNat - 1, by omega⟩
  have hrun := runWithOutput_failure (launch 0) command osEnviron pe hl e h0
  have hstep : runAttempts launch osEnviron command delay pe hl 0 (n + 1)
      = (LoopResult.propagated e,
         traceBase command osEnviron pe hl
           ++ (if hl then
                 [Event.exceptionLog (checkCallHead ++ pyJoinSpace (normalizeCmd command))]
               else [])) := by
    rcases e with m | m | m | i
    · exact absurd rfl (hne m)
    all_goals simp only [runAttempts]
    all_goals rw [hrun]
  have hpair : runWithRetries launch osEnviron command retries delay pe hl
      = (Except.error e,
         traceBase command osEnviron pe hl
           ++ (if hl then
                 [Event.exceptionLog (checkCallHead ++ pyJoinSpace (normalizeCmd command))]
               else [])) := by
    simp only [runWithRetries, hn]
    rw [hstep]
  refine ⟨⟨by rw [hpair], ?_, ?_, ?_⟩, by decide⟩ <;> rw [hpair] <;> cases hl <;>
    simp [countLaunches_append, countLaunches_traceBase, countLaunches_logEvent,
      countSleeps_append, countSleeps_traceBase, countSleeps_logEvent,
      countRetryNotices_append, countRetryNotices_traceBase, countRetryNotices_logEvent]

/-- Witness for C6: a launch-level OSError at the very first attempt with
retries=4 propagates at once. -/
theorem runWithRetries_catches_only_commandFailed_witness :
    (1 : Int) ≤ 4
    ∧ (fun (_ : Nat) (_ : List (List Char)) (_ : Env) =>
        LaunchOutcome.failure (PyExc.otherExc ("ValueError".data))) 0
        (normalizeCmd (Command.tokens ["go".data])) [] =
        LaunchOutcome.failure (PyExc.otherExc ("ValueError".data))
    ∧ (∀ m, PyExc.otherExc ("ValueError".data) ≠ PyExc.commandFailed m)
    ∧ (((runWithRetries (fun _ _ _ => LaunchOutcome.failure (PyExc.otherExc ("ValueError".data)))
          [] (Command.tokens ["go".data]) 4 9 true true).1
        = .error (PyExc.otherExc ("ValueError".data))
      ∧ countLaunches (runWithRetries (fun _ _ _ => LaunchOutcome.failure (PyExc.otherExc ("ValueError".data)))
          [] (Command.tokens ["go".data]) 4 9 true true).2 = 1
      ∧ countSleeps (runWithRetries (fun _ _ _ => LaunchOutcome.failure (PyExc.otherExc ("ValueError".data)))
          [] (Command.tokens ["go".data]) 4 9 true true).2 = 0
      ∧ countRetryNotices (runWithRetries (fun _ _ _ => LaunchOutcome.failure (PyExc.otherExc ("ValueError".data)))
          [] (Command.tokens ["go".data]) 4 9 true true).2 = 0)
    ∧ ((runWithRetries (fun k _ _ => if k = 0 then LaunchOutcome.exit 1
            else LaunchOutcome.failure (PyExc.otherExc ("OSError".data)))
          [] (Command.tokens ["x".data]) 5 7 false true).1
        = .error (PyExc.otherExc ("OSError".data))
      ∧ countLaunches (runWithRetries (fun k _ _ => if k = 0 then LaunchOutcome.exit 1
            else LaunchOutcome.failure (PyExc.otherExc ("OSError".data)))
          [] (Command.tokens ["x".data]) 5 7 false true).2 = 2
      ∧ countSleeps (runWithRetries (fun k _ _ => if k = 0 then LaunchOutcome.exit 1
            else LaunchOutcome.failure (PyExc.otherExc ("OSError".data)))
          [] (Command.tokens ["x".data]) 5 7 false true).2 = 1
      ∧ countRetryNotices (runWithRetries (fun k _ _ => if k = 0 then LaunchOutcome.exit 1
            else LaunchOutcome.failure (PyExc.otherExc ("OSError".data)))
          [] (Command.tokens ["x".data]) 5 7 false true).2 = 1)) :=
  ⟨by decide, rfl, fun m h => PyExc.noConfusion h,
   runWithRetries_catches_only_commandFailed
     (fun _ _ _ => LaunchOutcome.failure (PyExc.otherExc ("ValueError".data)))
     [] (Command.tokens ["go".data]) 4 9 true true (PyExc.otherExc ("ValueError".data))
     (by decide) rfl (fun m h => PyExc.noConfusion h)⟩

/-- C10: for every retries value less than or equal to 0, `runWithRetries`
makes zero attempts — `runWithOutput` is never invoked, no sleep occurs,
indeed no event at all is emitted — and it goes straight to the
terminal-failure path: it raises (the `TypeError` of the malformed terminal
format string) rather than returning normally. -/
theorem runWithRetries_nonpositive_retries
    (launch : Nat → List (List Char) → Env → LaunchOutcome) (osEnviron : Env)
    (command : Command) (retries : Int) (delay : Nat) (pe hl : Bool)
    (h : retries ≤ 0) :
    (runWithRetries launch osEnviron command retries delay pe hl).2 = []
    ∧ countLaunches (runWithRetries launch osEnviron command retries delay pe hl).2 = 0
    ∧ countSleeps (runWithRetries launch osEnviron command retries delay pe hl).2 = 0
    ∧ (runWithRetries launch osEnviron command retries delay pe hl).1
      = .error (.typeError floatErrMsg) := by
  have h0 : retries.toNat = 0 := by omega
  have hpair : runWithRetries launch osEnviron command retries delay pe hl
      = (Except.error (.typeError floatErrMsg), []) := by
    simp [runWithRetries, h0, runAttempts, pyFormat_retryMsg]
  rw [hpair]
  exact ⟨rfl, rfl, rfl, rfl⟩

/-- Witness for C10 at retries = -1. -/
theorem runWithRetries_nonpositive_retries_witness :
    (-1 : Int) ≤ 0
    ∧ ((runWithRetries (fun _ _ _ => LaunchOutcome.success []) [] (Command.tokens ["a".data])
          (-1) 3 true true).2 = []
      ∧ countLaunches (runWithRetries (fun _ _ _ => LaunchOutcome.success []) []
          (Command.tokens ["a".data]) (-1) 3 true true).2 = 0
      ∧ countSleeps (runWithRetries (fun _ _ _ => LaunchOutcome.success []) []
          (Command.tokens ["a".data]) (-1) 3 true true).2 = 0
      ∧ (runWithRetries (fun _ _ _ => LaunchOutcome.success []) []
          (Command.tokens ["a".data]) (-1) 3 true true).1
        = .error (.typeError floatErrMsg)) :=
  ⟨by decide,
   runWithRetries_nonpositive_retries (fun _ _ _ => LaunchOutcome.success [])
     [] (Command.tokens ["a".data]) (-1) 3 true true (by decide)⟩
